import Mathlib

/-!
Shallow embedding of the personal-assistant repository's core logic:
the email classifier and notification ranker (`gmail_integration.py`),
the persistence gateway over the six SQLite tables
(`personal_ass_database.py`, of which the email, notification and
study-session tables are modelled — the ones the verified claims touch),
the mark-read update of the main controller
(`main_personal_ass_controller.py`), and the study advisor
(`study_learning_assit.py`).

Modelling conventions:
* Python strings are Lean `String`s (sequences of code points); Python
  slicing `s[:n]` is `strTake`, Python substring membership `a in b` is
  `strContains`.
* SQLite tables are Lean lists of records kept in insertion (rowid)
  order; `AUTOINCREMENT` primary keys are modelled by a next-id counter
  in the database state; `CURRENT_TIMESTAMP` / `datetime.now()` is an
  explicit `now : Nat` argument threaded into each insert, and calendar
  dates are `Int` day numbers.
* `ORDER BY` with the default BINARY collation compares strings bytewise
  on UTF-8, which for valid UTF-8 coincides with the code-point
  lexicographic order, i.e. Lean's `String` order.  Ties not separated
  by the ORDER BY key are modelled in table order (stable insertion
  sort), matching the scenarios under verification, which use distinct
  keys.
* `random.choice(pool)` is modelled by returning the branch taken
  together with the candidate pool the choice is drawn from
  (`Suggestion`): every property proved is about the branch and the
  pool, never about which element the generator picks.
* Python's `//` and `/` raise `ZeroDivisionError` on a zero divisor;
  fallible arithmetic is embedded in `Except PyError`.
* The Gmail service is out of scope (spec §1); its list/get responses
  reach `fetch_recent_emails` as an `Except`-valued argument, an error
  standing for the exceptions (auth or network) the source catches.
  Base64 body data arrives already decoded in `bodyData`.
-/

/-- Checks that the first list of characters is an initial segment of the second. -/
def listIsPre : List Char → List Char → Bool
  | [], _ => true
  | _ :: _, [] => false
  | a :: as, b :: bs => a == b && listIsPre as bs

/-- Checks that `needle` occurs contiguously inside the second list. -/
def listHasSub (needle : List Char) : List Char → Bool
  | [] => needle.isEmpty
  | b :: bs => listIsPre needle (b :: bs) || listHasSub needle bs

/-- Python substring test `needle in hay` on strings. -/
def strContains (hay needle : String) : Bool :=
  listHasSub needle.toList hay.toList

/-- Lexicographic comparison of character lists by code point — the order
SQLite's BINARY collation induces on valid UTF-8 text. -/
def charListLt : List Char → List Char → Bool
  | _, [] => false
  | [], _ :: _ => true
  | a :: as, b :: bs => decide (a < b) || (a == b && charListLt as bs)

/-- Strict string comparison under the BINARY collation. -/
def strLt (a b : String) : Bool :=
  charListLt a.toList b.toList

/-- Python slice `s[:n]`: the first `n` characters of `s`. -/
def strTake (s : String) (n : Nat) : String :=
  String.mk (s.toList.take n)

/-- Python `s.lower()`, character by character.  The keywords under test
are ASCII, so the ASCII case mapping of `Char.toLower` suffices. -/
def strLower (s : String) : String :=
  String.mk (s.toList.map Char.toLower)

/-- Row of the `emails` table (`personal_ass_database.py`, `init_database`).
Unused-by-the-code columns `attachments` is omitted along with nothing else;
`labels` holds the JSON-encoded label list exactly as `add_email` stores it. -/
structure EmailRec where
  id : Nat
  gmail_id : String
  sender : String
  subject : String
  snippet : String
  body : Option String
  received_date : Nat
  is_read : Bool
  is_important : Bool
  labels : Option String
  created_at : Nat
  deriving DecidableEq

/-- Row of the `notifications` table (`personal_ass_database.py`, `init_database`). -/
structure NotificationRec where
  id : Nat
  type : String
  title : String
  message : String
  priority : String
  is_read : Bool
  scheduled_for : Option Nat
  created_at : Nat
  action_required : Bool
  metadata : Option String
  deriving DecidableEq

/-- Row of the `study_sessions` table (`personal_ass_database.py`,
`init_database`); only the columns the verified code paths read are carried. -/
structure StudySession where
  id : Nat
  subject : String
  topic : String
  duration_minutes : Int
  study_type : String
  session_date : Int
  created_at : Nat
  deriving DecidableEq

/-- State of the SQLite database: the three tables the claims exercise, in
rowid order, plus the AUTOINCREMENT counters. -/
structure DBState where
  emails : List EmailRec
  notifications : List NotificationRec
  study_sessions : List StudySession
  nextEmailId : Nat
  nextNotifId : Nat
  nextSessionId : Nat
  deriving DecidableEq

/-- Fresh database as created by `PersonalAssistantDB.init_database`:
empty tables, AUTOINCREMENT keys starting at 1. -/
def init_database : DBState :=
  { emails := [], notifications := [], study_sessions := [],
    nextEmailId := 1, nextNotifId := 1, nextSessionId := 1 }

/-- Encoding of `json.dumps` on a list of plain strings (the label ids the
Gmail API returns); escaping of special characters inside a label is not
exercised by any claim. -/
def json_dumps_list (l : List String) : String :=
  "[" ++ String.intercalate ", " (l.map (fun s => "\"" ++ s ++ "\"")) ++ "]"

/-- `PersonalAssistantDB.add_email`: `INSERT OR IGNORE` into `emails`, whose
`gmail_id` column is UNIQUE — a row whose `gmail_id` already occurs is not
inserted and the database is unchanged.  `labels_json` mirrors
`json.dumps(labels) if labels else None` (an empty list is falsy in Python). -/
def add_email (db : DBState) (now : Nat) (gmail_id sender subject snippet : String)
    (body : Option String) (labels : Option (List String)) : DBState :=
  let labels_json : Option String :=
    match labels with
    | some l => if l.isEmpty then none else some (json_dumps_list l)
    | none => none
  if db.emails.any (fun r => r.gmail_id == gmail_id) then db
  else
    { db with
      emails := db.emails ++ [{
        id := db.nextEmailId, gmail_id := gmail_id, sender := sender,
        subject := subject, snippet := snippet, body := body,
        received_date := now, is_read := false, is_important := false,
        labels := labels_json, created_at := now }],
      nextEmailId := db.nextEmailId + 1 }

/-- `PersonalAssistantDB.create_notification`: plain INSERT into
`notifications`; `is_read`, `action_required` and `metadata` take their
column defaults (FALSE, FALSE, NULL), `created_at` takes CURRENT_TIMESTAMP.
Returns the new row's id alongside the new state, as the source returns
`cursor.lastrowid`. -/
def create_notification (db : DBState) (now : Nat) (type title message priority : String)
    (scheduled_for : Option Nat) : DBState × Nat :=
  let nid := db.nextNotifId
  ({ db with
     notifications := db.notifications ++ [{
       id := nid, type := type, title := title, message := message,
       priority := priority, is_read := false, scheduled_for := scheduled_for,
       created_at := now, action_required := false, metadata := none }],
     nextNotifId := nid + 1 }, nid)

/-- `PersonalAssistantDB.log_study_session`: plain INSERT into
`study_sessions` with `session_date = datetime.now().date()`. -/
def log_study_session (db : DBState) (now : Nat) (today : Int)
    (subject topic : String) (duration_minutes : Int) (study_type : String) :
    DBState × Nat :=
  let sid := db.nextSessionId
  ({ db with
     study_sessions := db.study_sessions ++ [{
       id := sid, subject := subject, topic := topic,
       duration_minutes := duration_minutes, study_type := study_type,
       session_date := today, created_at := now }],
     nextSessionId := sid + 1 }, sid)

/-- Mark-read update of the main controller (menu choice 3):
`UPDATE notifications SET is_read = TRUE WHERE id = ?`. -/
def mark_notification_read (db : DBState) (nid : Nat) : DBState :=
  { db with
    notifications := db.notifications.map
      (fun n => if n.id == nid then { n with is_read := true } else n) }

/-- Keyword list of `GmailIntegrator.analyze_emails_for_notifications`. -/
def important_keywords : List String :=
  ["urgent", "important", "asap", "deadline", "meeting",
   "interview", "project", "submit", "payment", "invoice"]

/-- Domain allow-list of `GmailIntegrator.analyze_emails_for_notifications`. -/
def important_domains : List String :=
  ["work.com", "university.edu", "bank.com"]

/-- Parsed email dictionary built by `GmailIntegrator.fetch_recent_emails`. -/
structure EmailInfo where
  gmail_id : String
  sender : String
  subject : String
  snippet : String
  body : String
  labels : List String
  date : String
  deriving DecidableEq

/-- Sender-domain extraction of the analyzer:
`email['sender'].split('@')[-1] if '@' in email['sender'] else ''`. -/
def sender_domain (sender : String) : String :=
  if strContains sender "@" then
    String.mk ((sender.toList.reverse.takeWhile (fun c => c != '@')).reverse)
  else ""

/-- Keyword test of the analyzer: some keyword occurs as a substring of the
lower-cased `subject + ' ' + snippet`. -/
def keyword_match (e : EmailInfo) : Bool :=
  important_keywords.any
    (fun k => strContains (strLower (e.subject ++ " " ++ e.snippet)) k)

/-- Domain test of the analyzer: some allow-listed domain occurs as a
substring of the sender's domain (`domain in sender_domain`). -/
def domain_match (e : EmailInfo) : Bool :=
  important_domains.any (fun d => strContains (sender_domain e.sender) d)

/-- Priority derivation of `analyze_emails_for_notifications`: start at
`'medium'`, raise to `'high'` on a keyword hit, raise to `'high'` on a
domain hit. -/
def classify (e : EmailInfo) : String :=
  let priority := "medium"
  let priority := if keyword_match e then "high" else priority
  let priority := if domain_match e then "high" else priority
  priority

/-- Local `action_required` flag the analyzer computes (set exactly on the
keyword branch) — and then never passes to `create_notification`. -/
def computed_action_required (e : EmailInfo) : Bool :=
  keyword_match e

/-- Modelled from the spec wording of claim C1: the sender's domain
"matches the fixed allow-list", read as exact membership of the domain in
the allow-list.  The source instead tests substring containment
(`domain_match`); the two are compared by the C1 theorems. -/
def spec_domain_allow_listed (e : EmailInfo) : Bool :=
  important_domains.any (fun d => sender_domain e.sender == d)

/-- Per-email body of the loop in `analyze_emails_for_notifications`:
classify, then insert a notification of type `'email'` — passing only
type, title, message and priority, so `action_required` is left to its
FALSE column default. -/
def analyze_email_for_notification (db : DBState) (now : Nat) (e : EmailInfo) : DBState :=
  let priority := classify e
  (create_notification db now "email"
    ("New email: " ++ strTake e.subject 50 ++ "...")
    ("From: " ++ e.sender ++ "\n" ++ strTake e.snippet 100 ++ "...")
    priority none).1

/-- `GmailIntegrator.analyze_emails_for_notifications` over a fetched batch. -/
def analyze_emails_for_notifications (db : DBState) (now : Nat)
    (emails : List EmailInfo) : DBState :=
  emails.foldl (fun d e => analyze_email_for_notification d now e) db

/-- One part of a multipart Gmail payload, as far as the source reads it:
its mime type and its (decoded) body data. -/
structure PayloadPart where
  mimeType : String
  bodyData : String
  deriving DecidableEq

/-- Gmail message payload as far as the source reads it: headers, top-level
mime type and body data, and the optional one-level list of parts. -/
structure Payload where
  headers : List (String × String)
  mimeType : String
  bodyData : String
  parts : Option (List PayloadPart)
  deriving DecidableEq

/-- Gmail message as far as the source reads it. -/
structure GmailMessage where
  id : String
  payload : Payload
  snippet : String
  labelIds : List String
  deriving DecidableEq

/-- `GmailIntegrator.extract_email_body`: with parts present, the body data
of the first `text/plain` part (empty if none); otherwise the top-level
body data when the top-level mime type is `text/plain`, else empty. -/
def extract_email_body (p : Payload) : String :=
  match p.parts with
  | some parts =>
    match parts.find? (fun part => part.mimeType == "text/plain") with
    | some part => part.bodyData
    | none => ""
  | none => if p.mimeType == "text/plain" then p.bodyData else ""

/-- First-match header extraction:
`next((h['value'] for h in headers if h['name'] == nm), dflt)`. -/
def header_value (headers : List (String × String)) (nm dflt : String) : String :=
  match headers.find? (fun h => h.1 == nm) with
  | some h => h.2
  | none => dflt

/-- Per-message body of the loop in `GmailIntegrator.fetch_recent_emails`:
extract headers and body, build the returned `email_info` dictionary —
whose `body` is `body[:1000] if body else snippet` — and persist through
`add_email`, passing the *untruncated* `body`. -/
def process_message (db : DBState) (now : Nat) (msg : GmailMessage) :
    EmailInfo × DBState :=
  let sender := header_value msg.payload.headers "From" "Unknown"
  let subject := header_value msg.payload.headers "Subject" "No Subject"
  let date_str := header_value msg.payload.headers "Date" ""
  let body := extract_email_body msg.payload
  let snippet := msg.snippet
  let labels := msg.labelIds
  let email_info : EmailInfo := {
    gmail_id := msg.id, sender := sender, subject := subject,
    snippet := snippet,
    body := if body != "" then strTake body 1000 else snippet,
    labels := labels, date := date_str }
  (email_info, add_email db now msg.id sender subject snippet (some body) (some labels))

/-- Message loop of `fetch_recent_emails`.  A failing per-message get call
raises inside the `try`, so the accumulated batch is discarded and the
top-level handler returns the empty list — while the rows already inserted
by earlier iterations stay committed. -/
def fetch_loop (now : Nat) : DBState → List (Except String GmailMessage) →
    List EmailInfo → List EmailInfo × DBState
  | db, [], acc => (acc, db)
  | db, .error _ :: _, _ => ([], db)
  | db, .ok m :: rest, acc =>
    let r := process_message db now m
    fetch_loop now r.2 rest (acc ++ [r.1])

/-- `GmailIntegrator.fetch_recent_emails`: a failed authentication or a
failing list call (the outer `Except.error`) yields the empty list and an
unchanged database; otherwise each listed message is fetched and processed
in order. -/
def fetch_recent_emails (db : DBState) (now : Nat)
    (svc : Except String (List (Except String GmailMessage))) :
    List EmailInfo × DBState :=
  match svc with
  | .error _ => ([], db)
  | .ok msgs => fetch_loop now db msgs []

/-- Output-order predicate of `get_pending_notifications`'s
`ORDER BY priority DESC, created_at DESC`: row `a` sorts no later than row
`b`. -/
def pending_le (a b : NotificationRec) : Bool :=
  if a.priority == b.priority then decide (b.created_at ≤ a.created_at)
  else strLt b.priority a.priority

/-- `PersonalAssistantDB.get_pending_notifications`:
`SELECT * FROM notifications WHERE is_read = FALSE ORDER BY priority DESC,
created_at DESC`, rows with equal keys kept in table order. -/
def get_pending_notifications (db : DBState) : List NotificationRec :=
  List.insertionSort (fun a b => pending_le a b = true)
    (db.notifications.filter (fun n => !n.is_read))

/-- Priority rank of `NotificationManager.display_notifications`:
`priority_order.get(x[4], 5)` with urgent=1, high=2, medium=3, low=4 and 5
for anything else. -/
def priority_order (p : String) : Nat :=
  if p == "urgent" then 1 else if p == "high" then 2
  else if p == "medium" then 3 else if p == "low" then 4 else 5

/-- Display order of `NotificationManager.display_notifications`: the
pending rows, re-sorted by Python's stable `sorted` on the priority rank
alone (insertion sort on a total preorder is stable, like `sorted`). -/
def display_notifications (db : DBState) : List NotificationRec :=
  List.insertionSort
    (fun a b => priority_order a.priority ≤ priority_order b.priority)
    (get_pending_notifications db)

/-- Curriculum dictionary `StudyAssistant.study_topics`, looked up as
`study_topics.get(subject, {}).get(level, [])`. -/
def study_topics (subject level : String) : List String :=
  if subject == "nlp" then
    if level == "beginner" then
      ["Text preprocessing", "Tokenization", "Stop words removal",
       "Stemming and Lemmatization", "Bag of Words", "TF-IDF"]
    else if level == "intermediate" then
      ["Word embeddings", "Word2Vec", "GloVe", "Sentiment analysis",
       "Named Entity Recognition", "Part-of-speech tagging"]
    else if level == "advanced" then
      ["BERT and Transformers", "GPT models", "Attention mechanism",
       "Sequence-to-sequence models", "Transfer learning in NLP"]
    else []
  else if subject == "python" then
    if level == "beginner" then
      ["Variables and data types", "Control structures", "Functions",
       "Lists and dictionaries", "File handling", "Exception handling"]
    else if level == "intermediate" then
      ["Object-oriented programming", "Decorators", "Generators",
       "Regular expressions", "Working with APIs", "Database connections"]
    else if level == "advanced" then
      ["Metaclasses", "Async programming", "Performance optimization",
       "Design patterns", "Testing frameworks", "Package development"]
    else []
  else if subject == "machine_learning" then
    if level == "beginner" then
      ["Supervised vs Unsupervised learning", "Linear regression",
       "Logistic regression", "Decision trees", "Cross-validation"]
    else if level == "intermediate" then
      ["Random forests", "SVM", "K-means clustering", "Neural networks",
       "Feature engineering", "Model evaluation metrics"]
    else if level == "advanced" then
      ["Deep learning", "Convolutional networks", "Recurrent networks",
       "Ensemble methods", "Hyperparameter tuning", "MLOps"]
    else []
  else []

/-- Recent-topic query of `StudyAssistant.suggest_study_topic`:
`SELECT topic FROM study_sessions WHERE subject = ? AND session_date >= ?
ORDER BY session_date DESC LIMIT 5`, with the cutoff
`datetime.now().date() - timedelta(days=7)`. -/
def recent_topics_query (db : DBState) (subject : String) (cutoff : Int) :
    List String :=
  (((db.study_sessions.filter
      (fun s => s.subject == subject && decide (cutoff ≤ s.session_date))).insertionSort
    (fun a b => b.session_date ≤ a.session_date)).take 5).map (fun s => s.topic)

/-- Outcome of `StudyAssistant.suggest_study_topic` with the random draw
left open: the branch taken, carrying the pool `random.choice` draws from
(or the placeholder message of the unavailable branch). -/
inductive Suggestion where
  | unavailable (msg : String)
  | review (pool : List String)
  | fresh (pool : List String)
  deriving DecidableEq

/-- `StudyAssistant.suggest_study_topic`: last-7-days topics (at most 5, by
the LIMIT), curriculum lookup with the subject lower-cased, placeholder if
the lookup is empty, review pick from the recent topics if every available
topic was recently studied, otherwise fresh pick from the unstudied ones. -/
def suggest_study_topic (db : DBState) (today : Int) (subject level : String) :
    Suggestion :=
  let recent := recent_topics_query db subject (today - 7)
  let available := study_topics (strLower subject) level
  if available.isEmpty then
    .unavailable ("No topics available for " ++ subject ++ " at " ++ level ++ " level")
  else
    let unstudied := available.filter (fun t => !recent.contains t)
    if unstudied.isEmpty then .review recent
    else .fresh unstudied

/-- Errors Python arithmetic can raise in `create_study_plan`. -/
inductive PyError where
  | zeroDivision
  deriving DecidableEq

/-- Python integer floor division `a // b`, raising `ZeroDivisionError` on a
zero divisor (both operands are non-negative here). -/
def pyFloorDiv (a b : Nat) : Except PyError Nat :=
  if b == 0 then .error .zeroDivision else .ok (a / b)

/-- One entry of the `weekly_schedule` of a study plan.  Python float
arithmetic on the hour fields is modelled exactly in `Rat` (the quotients
involved are exact); no claim depends on these fields. -/
structure WeekEntry where
  week : Nat
  topics : List (String × String)
  estimated_hours : Rat
  deriving DecidableEq

/-- Study-plan dictionary of `StudyAssistant.create_study_plan`.  The
source additionally rounds the displayed `hours_per_topic` to one decimal
(`round(x, 1)` on a binary float); the stored field here is the unrounded
value, which no claim touches. -/
structure StudyPlan where
  subject : String
  duration_weeks : Nat
  hours_per_week : Rat
  hours_per_topic : Rat
  weekly_schedule : List WeekEntry
  deriving DecidableEq

/-- Flattening step of `create_study_plan`: the three difficulty tiers of
the (lower-cased) subject in order, each topic tagged with its level. -/
def flatten_topics (subject : String) : List (String × String) :=
  ["beginner", "intermediate", "advanced"].foldl
    (fun acc level =>
      acc ++ (study_topics (strLower subject) level).map (fun t => (t, level))) []

/-- Invariant of the `emails` table: no two rows share a `gmail_id`
(enforced in the source by the UNIQUE column constraint together with
`INSERT OR IGNORE`). -/
def emails_gmail_id_unique (db : DBState) : Prop :=
  db.emails.Pairwise (fun a b => a.gmail_id ≠ b.gmail_id)

/-- `StudyAssistant.create_study_plan`:
`topics_per_week = len(topics) // weeks if topics else 1` (the floor
division raises on `weeks == 0` whenever the flattened list is non-empty),
`hours_per_topic = hours_per_week / topics_per_week` guarded by
`topics_per_week > 0`, and week `w` receives the slice
`topics[w*tpw : min((w+1)*tpw, len(topics))]`. -/
def create_study_plan (subject : String) (hours_per_week : Rat) (weeks : Nat) :
    Except PyError StudyPlan :=
  let topics := flatten_topics subject
  match (if topics.isEmpty then Except.ok 1 else pyFloorDiv topics.length weeks) with
  | .error e => .error e
  | .ok topics_per_week =>
    let hours_per_topic :=
      if topics_per_week > 0 then hours_per_week / (topics_per_week : Rat)
      else hours_per_week
    .ok {
      subject := subject, duration_weeks := weeks,
      hours_per_week := hours_per_week, hours_per_topic := hours_per_topic,
      weekly_schedule := (List.range weeks).map (fun week =>
        let start_idx := week * topics_per_week
        let end_idx := min ((week + 1) * topics_per_week) topics.length
        let week_topics := (topics.drop start_idx).take (end_idx - start_idx)
        { week := week + 1, topics := week_topics,
          estimated_hours := (week_topics.length : Rat) * hours_per_topic }) }

/-!  Concrete scenarios referenced by counterexamples and witnesses. -/

/-- Email whose sender domain `notwork.com` is not on the allow-list but
contains the allow-listed `work.com` as a substring, and whose subject and
snippet hold no keyword. -/
def emailNotWork : EmailInfo :=
  { gmail_id := "cex1", sender := "alice@notwork.com", subject := "hello",
    snippet := "", body := "", labels := [], date := "" }

/-- Email whose subject carries the keywords `project` and `deadline`. -/
def emailDeadline : EmailInfo :=
  { gmail_id := "kw1", sender := "bob@example.org",
    subject := "Project deadline", snippet := "see you",
    body := "", labels := [], date := "" }

/-- Database after inserting four unread notifications with priorities
low, high, medium, high in that order (creation times 1 < 2 < 3 < 4),
titles and messages arbitrary. -/
def notif4 (ti1 me1 ti2 me2 ti3 me3 ti4 me4 : String) : DBState :=
  let d := init_database
  let d := (create_notification d 1 "email" ti1 me1 "low" none).1
  let d := (create_notification d 2 "email" ti2 me2 "high" none).1
  let d := (create_notification d 3 "email" ti3 me3 "medium" none).1
  let d := (create_notification d 4 "email" ti4 me4 "high" none).1
  d

/-- The four-notification scenario with concrete titles and messages. -/
def notif4c : DBState := notif4 "n1" "m1" "n2" "m2" "n3" "m3" "n4" "m4"

/-- Database holding one stored email with remote id `g1`. -/
def dbOneEmail : DBState :=
  add_email init_database 5 "g1" "alice@x" "subj" "snip" (some "body") (some ["INBOX"])

/-- The row `dbOneEmail` holds. -/
def recOneEmail : EmailRec :=
  { id := 1, gmail_id := "g1", sender := "alice@x", subject := "subj",
    snippet := "snip", body := some "body", received_date := 5,
    is_read := false, is_important := false,
    labels := some "[\"INBOX\"]", created_at := 5 }

/-- A 1001-character plain-text body. -/
def bigBody : String := String.mk (List.replicate 1001 'a')

/-- Gmail message whose single-part payload carries `bigBody`. -/
def msgBig : GmailMessage :=
  { id := "m1",
    payload := { headers := [("From", "bob@example.org"), ("Subject", "hi")],
                 mimeType := "text/plain", bodyData := bigBody, parts := none },
    snippet := "snip", labelIds := ["UNREAD"] }

/-- Database in which all six beginner Python topics were logged as study
sessions on the six distinct days 9, 8, 7, 6, 5, 4 — all within 7 days of
day 10. -/
def dbSixLogged : DBState :=
  let d := init_database
  let d := (log_study_session d 0 9 "python" "Variables and data types" 30 "reading").1
  let d := (log_study_session d 0 8 "python" "Control structures" 30 "reading").1
  let d := (log_study_session d 0 7 "python" "Functions" 30 "reading").1
  let d := (log_study_session d 0 6 "python" "Lists and dictionaries" 30 "reading").1
  let d := (log_study_session d 0 5 "python" "File handling" 30 "reading").1
  let d := (log_study_session d 0 4 "python" "Exception handling" 30 "reading").1
  d

/-- Database in which all five beginner machine-learning topics were logged
on days 9, 8, 7, 6, 5 — a curriculum small enough for the LIMIT-5 recent
list to cover it. -/
def dbFiveLogged : DBState :=
  let d := init_database
  let d := (log_study_session d 0 9 "machine_learning" "Supervised vs Unsupervised learning" 30 "reading").1
  let d := (log_study_session d 0 8 "machine_learning" "Linear regression" 30 "reading").1
  let d := (log_study_session d 0 7 "machine_learning" "Logistic regression" 30 "reading").1
  let d := (log_study_session d 0 6 "machine_learning" "Decision trees" 30 "reading").1
  let d := (log_study_session d 0 5 "machine_learning" "Cross-validation" 30 "reading").1
  d

/-- Database holding one notification, id 1, unread. -/
def dbOneNotif : DBState :=
  (create_notification init_database 1 "reminder" "Study NLP" "Session time" "high" none).1

/-- The notification row the analyzer inserts for `emailDeadline` on an
empty database (fallback value for the lookup is a record whose
`action_required` is deliberately `true`, so the witness cannot succeed by
hitting the fallback). -/
def recDeadlineNotif : NotificationRec :=
  (analyze_emails_for_notifications init_database 0 [emailDeadline]).notifications.getLastD
    { id := 0, type := "", title := "", message := "", priority := "",
      is_read := false, scheduled_for := none, created_at := 0,
      action_required := true, metadata := none }

/-!  Verification of the claims. -/

/-- C1, as stated, is false at `emailNotWork`: the classifier yields
`high` although no keyword occurs and the sender's domain `notwork.com` is
not on the allow-list (it merely contains the allow-listed `work.com` as a
substring, which is what the source actually tests). -/
theorem C1_counterexample :
    ¬ (classify emailNotWork = "high" ↔
        (keyword_match emailNotWork = true ∨
         spec_domain_allow_listed emailNotWork = true)) := by
  decide

/-- C1 (amended): classification yields `high` exactly when the case-folded
subject+snippet contains a keyword or the sender's domain contains an
allow-listed domain as a substring; every email is classified `high` or
`medium`. -/
theorem C1_classify_high_iff (e : EmailInfo) :
    (classify e = "high" ↔ (keyword_match e = true ∨ domain_match e = true)) ∧
    (classify e = "high" ∨ classify e = "medium") := by
  cases hk : keyword_match e <;> cases hd : domain_match e <;>
    simp [classify, hk, hd]

/-- C3: `add_email` preserves uniqueness of the remote id across the
`emails` table, and inserting a row whose `gmail_id` is already stored
leaves the database unchanged (the `INSERT OR IGNORE` no-op); the fresh
database trivially satisfies the invariant. -/
theorem C3_add_email_unique_noop (db : DBState) (now : Nat)
    (gid sender subject snippet : String) (body : Option String)
    (labels : Option (List String)) (hinv : emails_gmail_id_unique db) :
    emails_gmail_id_unique init_database ∧
    emails_gmail_id_unique (add_email db now gid sender subject snippet body labels) ∧
    (∀ r ∈ db.emails, r.gmail_id = gid →
      add_email db now gid sender subject snippet body labels = db) := by
  refine ⟨by simp [emails_gmail_id_unique, init_database], ?_, ?_⟩
  · by_cases h : db.emails.any (fun r => r.gmail_id == gid)
    · simpa [add_email, h] using hinv
    · unfold emails_gmail_id_unique at hinv ⊢
      simp only [add_email, h, if_neg, Bool.false_eq_true, not_false_iff,
        if_false]
      rw [List.pairwise_append]
      refine ⟨hinv, List.pairwise_singleton _ _, ?_⟩
      intro a ha b hb
      rw [List.mem_singleton] at hb
      subst hb
      intro hcontra
      have hany : db.emails.any (fun r => r.gmail_id == gid) = true :=
        List.any_eq_true.mpr ⟨a, ha, by simp [hcontra]⟩
      simp [h] at hany
  · intro r hr hgid
    have h : db.emails.any (fun x => x.gmail_id == gid) = true := by
      refine List.any_eq_true.mpr ⟨r, hr, ?_⟩
      simp [hgid]
    simp [add_email, h]

/-- C3 witness: with one stored email of remote id `g1`, re-inserting id
`g1` leaves the database unchanged and the invariant holds. -/
theorem C3_witness :
    emails_gmail_id_unique (add_email dbOneEmail 6 "g1" "y" "z" "w" none none) ∧
    add_email dbOneEmail 6 "g1" "y" "z" "w" none none = dbOneEmail :=
  ⟨(C3_add_email_unique_noop dbOneEmail 6 "g1" "y" "z" "w" none none
      (by constructor <;> simp)).2.1,
   (C3_add_email_unique_noop dbOneEmail 6 "g1" "y" "z" "w" none none
      (by constructor <;> simp)).2.2 recOneEmail (by decide) rfl⟩

/-- C2, as stated, is false: in the low/high/medium/high insertion
scenario the display sequence starts with the *second*-inserted high
(id 4), not the first-inserted one (id 2), because within equal priority
the persisted order is creation time *descending*. -/
theorem C2_counterexample :
    (display_notifications notif4c).map (fun n => (n.id, n.priority)) =
      [(4, "high"), (2, "high"), (3, "medium"), (1, "low")] ∧
    (display_notifications notif4c).map (fun n => n.id) ≠ [2, 4, 3, 1] := by
  decide

/-- C2 (amended): for four unread notifications created with priorities
low, high, medium, high in that insertion order (creation times
increasing), the ranked display sequence is the second-inserted high, then
the first-inserted high, then medium, then low — stable rank sort over the
persisted order, which is creation time descending within equal rank. -/
theorem C2_display_order (ti1 me1 ti2 me2 ti3 me3 ti4 me4 : String) :
    (display_notifications (notif4 ti1 me1 ti2 me2 ti3 me3 ti4 me4)).map
      (fun n => (n.id, n.priority)) =
      [(4, "high"), (2, "high"), (3, "medium"), (1, "low")] := by
  simp [notif4, display_notifications, get_pending_notifications,
    create_notification, init_database, pending_le, priority_order,
    strLt, charListLt, List.insertionSort, List.orderedInsert]

/-- C5, as stated, is false: with all six beginner Python topics logged
within the last 7 days (on distinct days), the LIMIT-5 recent-topic query
misses one topic, so `suggest_study_topic` takes the fresh branch — it
returns a curriculum pick, not a review suggestion. -/
theorem C5_counterexample :
    dbSixLogged.study_sessions.map (fun s => s.topic) =
      study_topics "python" "beginner" ∧
    dbSixLogged.study_sessions.all
      (fun s => s.subject == "python" && decide ((10 : Int) - 7 ≤ s.session_date)) = true ∧
    suggest_study_topic dbSixLogged 10 "python" "beginner" =
      Suggestion.fresh ["Exception handling"] := by
  decide

/-- C5 (amended): in the all-six-logged scenario the suggestion is a fresh
curriculum pick drawn from the topics not among the five most recent ones;
the recent list indeed holds only 5 of the 6 topics; and in general a
review suggestion's pool is exactly the recent-topic list, which never
holds more than 5 topics. -/
theorem C5_review_limited :
    (suggest_study_topic dbSixLogged 10 "python" "beginner" =
      Suggestion.fresh ((study_topics "python" "beginner").filter
        (fun t => !(recent_topics_query dbSixLogged "python" 3).contains t))) ∧
    (recent_topics_query dbSixLogged "python" 3).length = 5 ∧
    (∀ db today subject level pool,
      suggest_study_topic db today subject level = Suggestion.review pool →
      pool = recent_topics_query db subject (today - 7) ∧ pool.length ≤ 5) := by
  refine ⟨by decide, by decide, ?_⟩
  intro db today subject level pool h
  have hlen : ∀ cutoff : Int, (recent_topics_query db subject cutoff).length ≤ 5 := by
    intro cutoff
    simp only [recent_topics_query, List.length_map, List.length_take]
    omega
  simp only [suggest_study_topic] at h
  split at h
  · exact absurd h (by simp)
  · split at h
    · injection h with h2
      exact ⟨h2.symm, h2.symm ▸ hlen _⟩
    · exact absurd h (by simp)

/-- C5 witness: for the five-topic beginner machine-learning curriculum
fully logged in the last 7 days, the review branch fires and the theorem
pins its pool to the (at most five) recent topics. -/
theorem C5_witness :
    ["Supervised vs Unsupervised learning", "Linear regression",
     "Logistic regression", "Decision trees", "Cross-validation"] =
      recent_topics_query dbFiveLogged "machine_learning" ((10 : Int) - 7) ∧
    (["Supervised vs Unsupervised learning", "Linear regression",
      "Logistic regression", "Decision trees", "Cross-validation"] : List String).length ≤ 5 :=
  C5_review_limited.2.2 dbFiveLogged 10 "machine_learning" "beginner"
    ["Supervised vs Unsupervised learning", "Linear regression",
     "Logistic regression", "Decision trees", "Cross-validation"] (by decide)

/-- C4, as stated, is false: for a message whose plain-text body holds 1001
characters, the stored email row keeps all 1001 characters — the
`body[:1000]` truncation is applied only to the returned batch entry, while
`add_email` receives the untruncated body. -/
theorem C4_counterexample :
    (process_message init_database 0 msgBig).1.body.length = 1000 ∧
    ((process_message init_database 0 msgBig).2.emails.map
      (fun r => (r.body.getD "").length)) = [1001] ∧
    1000 < 1001 := by
  set_option maxRecDepth 40000 in decide

/-- C4 (amended): the 1000-character truncation applies to the `body` of
the email record returned to the caller (when the extracted body is
non-empty; otherwise the snippet is substituted verbatim), while the row
persisted through the gateway receives the untruncated extracted body. -/
theorem C4_truncation_on_return (db : DBState) (now : Nat) (msg : GmailMessage)
    (h : extract_email_body msg.payload ≠ "") :
    (process_message db now msg).1.body =
      strTake (extract_email_body msg.payload) 1000 ∧
    (process_message db now msg).1.body.length ≤ 1000 ∧
    (process_message db now msg).2 =
      add_email db now msg.id
        (header_value msg.payload.headers "From" "Unknown")
        (header_value msg.payload.headers "Subject" "No Subject")
        msg.snippet (some (extract_email_body msg.payload)) (some msg.labelIds) := by
  have hb : (extract_email_body msg.payload != "") = true := by
    simpa using h
  have h1 : (process_message db now msg).1.body =
      strTake (extract_email_body msg.payload) 1000 := by
    simp [process_message, hb]
  refine ⟨h1, ?_, rfl⟩
  rw [h1]
  have h2 : (strTake (extract_email_body msg.payload) 1000).length =
      ((extract_email_body msg.payload).toList.take 1000).length := rfl
  rw [h2, List.length_take]
  omega

/-- C4 witness: the amended statement at the 1001-character message. -/
theorem C4_witness :
    (process_message init_database 0 msgBig).1.body =
      strTake (extract_email_body msgBig.payload) 1000 ∧
    (process_message init_database 0 msgBig).1.body.length ≤ 1000 ∧
    (process_message init_database 0 msgBig).2 =
      add_email init_database 0 msgBig.id
        (header_value msgBig.payload.headers "From" "Unknown")
        (header_value msgBig.payload.headers "Subject" "No Subject")
        msgBig.snippet (some (extract_email_body msgBig.payload))
        (some msgBig.labelIds) :=
  C4_truncation_on_return init_database 0 msgBig
    (by set_option maxRecDepth 40000 in decide)

/-- C6: for each of the three curriculum subjects, the 5-hours/4-weeks plan
has exactly 4 weekly entries, whose topic counts sum to at most the total
number of curriculum topics across the three levels. -/
theorem C6_plan_shape (s : String) (hs : s ∈ ["nlp", "python", "machine_learning"]) :
    ∃ p, create_study_plan s 5 4 = Except.ok p ∧
      p.weekly_schedule.length = 4 ∧
      (p.weekly_schedule.map (fun w => w.topics.length)).sum ≤
        (flatten_topics s).length := by
  have hs2 : s = "nlp" ∨ s = "python" ∨ s = "machine_learning" := by
    simpa using hs
  rcases hs2 with rfl | rfl | rfl
  · exact ⟨_, rfl, by decide, by decide⟩
  · exact ⟨_, rfl, by decide, by decide⟩
  · exact ⟨_, rfl, by decide, by decide⟩

/-- C6 witness: the plan shape at subject `python`. -/
theorem C6_witness :
    ∃ p, create_study_plan "python" 5 4 = Except.ok p ∧
      p.weekly_schedule.length = 4 ∧
      (p.weekly_schedule.map (fun w => w.topics.length)).sum ≤
        (flatten_topics "python").length :=
  C6_plan_shape "python" (by simp)

/-- C7: `create_study_plan` never validates the week count — with
`weeks = 0` and a non-empty flattened curriculum the floor division raises
`ZeroDivisionError`, while for every positive week count the computation
completes without a division fault. -/
theorem C7_weeks_validation (subject : String) (hours : Rat) (weeks : Nat) :
    (flatten_topics subject ≠ [] →
      create_study_plan subject hours 0 = Except.error PyError.zeroDivision) ∧
    (0 < weeks → ∃ p, create_study_plan subject hours weeks = Except.ok p) := by
  constructor
  · intro hne
    have he : (flatten_topics subject).isEmpty = false := by
      simpa [List.isEmpty_iff] using hne
    simp [create_study_plan, he, pyFloorDiv]
  · intro hw
    have hz : (weeks == 0) = false :=
      beq_eq_false_iff_ne.mpr (Nat.pos_iff_ne_zero.mp hw)
    by_cases he : (flatten_topics subject).isEmpty <;>
      simp [create_study_plan, he, pyFloorDiv, hz]

/-- C7 witness: at subject `python` the zero-week plan faults and the
four-week plan completes. -/
theorem C7_witness :
    create_study_plan "python" 5 0 = Except.error PyError.zeroDivision ∧
    ∃ p, create_study_plan "python" 5 4 = Except.ok p :=
  ⟨(C7_weeks_validation "python" 5 0).1 (by decide),
   (C7_weeks_validation "python" 5 4).2 (by decide)⟩

/-- Helper: once any listed message fails its get call, the fetch loop
discards the accumulated batch and returns the empty list. -/
theorem fetch_loop_err_empty (now : Nat) :
    ∀ (msgs : List (Except String GmailMessage)) (db : DBState)
      (acc : List EmailInfo),
      (∃ m ∈ msgs, ∃ err, m = Except.error err) →
      (fetch_loop now db msgs acc).1 = [] := by
  intro msgs
  induction msgs with
  | nil =>
    intro db acc h
    rcases h with ⟨m, hm, _⟩
    cases hm
  | cons m rest ih =>
    intro db acc h
    cases m with
    | error e => rfl
    | ok g =>
      rcases h with ⟨m', hm', err, hme⟩
      rcases List.mem_cons.mp hm' with h1 | h2
      · subst h1
        simp at hme
      · exact ih _ _ ⟨m', h2, err, hme⟩

/-- C8: a failed authentication or list call yields the empty batch with
the database untouched — indistinguishable from an empty mailbox — and a
failure during any per-message get call likewise makes the operation
return the empty batch instead of propagating. -/
theorem C8_fetch_failure_empty (db : DBState) (now : Nat) :
    (∀ err, fetch_recent_emails db now (Except.error err) = ([], db)) ∧
    (∀ err, fetch_recent_emails db now (Except.error err) =
      fetch_recent_emails db now (Except.ok [])) ∧
    (∀ msgs, (∃ m ∈ msgs, ∃ err, m = Except.error err) →
      (fetch_recent_emails db now (Except.ok msgs)).1 = []) := by
  refine ⟨fun _ => rfl, fun _ => rfl, ?_⟩
  intro msgs h
  exact fetch_loop_err_empty now msgs db [] h

/-- C8 witness: a batch whose only get call fails comes back empty. -/
theorem C8_witness :
    (fetch_recent_emails init_database 0
      (Except.ok [Except.error "network error"])).1 = [] :=
  (C8_fetch_failure_empty init_database 0).2.2 [Except.error "network error"]
    ⟨Except.error "network error", by simp, "network error", rfl⟩

/-- Helper: applying the mark-read map twice equals applying it once. -/
theorem mark_map_idem (nid : Nat) (l : List NotificationRec) :
    (l.map (fun n => if n.id == nid then { n with is_read := true } else n)).map
      (fun n => if n.id == nid then { n with is_read := true } else n) =
    l.map (fun n => if n.id == nid then { n with is_read := true } else n) := by
  induction l with
  | nil => rfl
  | cons a l ih =>
    simp only [List.map_cons, ih]
    congr 1
    by_cases ha : a.id == nid <;> simp [ha]

/-- C9: marking a notification read is idempotent; with exactly one row of
the given id, exactly one such row remains afterwards, it is read, and all
rows keep every field other than the read flag. -/
theorem C9_mark_read_idempotent (db : DBState) (nid : Nat)
    (h : db.notifications.countP (fun n => n.id == nid) = 1) :
    mark_notification_read (mark_notification_read db nid) nid =
      mark_notification_read db nid ∧
    (mark_notification_read db nid).notifications.countP
      (fun n => n.id == nid) = 1 ∧
    (∀ n ∈ db.notifications, n.id = nid →
      { n with is_read := true } ∈ (mark_notification_read db nid).notifications) ∧
    (∀ n ∈ db.notifications, n.id ≠ nid →
      n ∈ (mark_notification_read db nid).notifications) := by
  refine ⟨?_, ?_, ?_, ?_⟩
  · simp only [mark_notification_read]
    rw [mark_map_idem]
  · simp only [mark_notification_read]
    rw [List.countP_map]
    have hcomp : ((fun n : NotificationRec => n.id == nid) ∘
        (fun n => if n.id == nid then { n with is_read := true } else n)) =
        fun n : NotificationRec => n.id == nid := by
      funext n
      by_cases hn : n.id == nid <;> simp [Function.comp, hn]
    rw [hcomp, h]
  · intro n hn hid
    simp only [mark_notification_read]
    exact List.mem_map.mpr ⟨n, hn, by simp [hid]⟩
  · intro n hn hid
    simp only [mark_notification_read]
    exact List.mem_map.mpr ⟨n, hn, by simp [hid]⟩

/-- C9 witness: the idempotence and one-row conclusions on a database with
a single notification of id 1. -/
theorem C9_witness :
    mark_notification_read (mark_notification_read dbOneNotif 1) 1 =
      mark_notification_read dbOneNotif 1 ∧
    (mark_notification_read dbOneNotif 1).notifications.countP
      (fun n => n.id == 1) = 1 :=
  ⟨(C9_mark_read_idempotent dbOneNotif 1 (by decide)).1,
   (C9_mark_read_idempotent dbOneNotif 1 (by decide)).2.1⟩

/-- C10: the analyzer inserts every email notification with
`action_required = false` — the flag it computes is never passed, so the
column default applies even for a keyword-classified high-priority email —
and every notification present after analyzing a batch either pre-existed
or has `action_required = false`. -/
theorem C10_action_required_never_set (db : DBState) (now : Nat)
    (e : EmailInfo) (emails : List EmailInfo) :
    (∃ r, (analyze_email_for_notification db now e).notifications =
        db.notifications ++ [r] ∧
      r.action_required = false ∧ r.priority = classify e) ∧
    (∀ n ∈ (analyze_emails_for_notifications db now emails).notifications,
      n ∈ db.notifications ∨ n.action_required = false) := by
  constructor
  · exact ⟨_, rfl, rfl, rfl⟩
  · induction emails generalizing db with
    | nil =>
      intro n hn
      exact Or.inl hn
    | cons e2 rest ih =>
      intro n hn
      have hn2 : n ∈ (analyze_emails_for_notifications
          (analyze_email_for_notification db now e2) now rest).notifications := hn
      rcases ih (analyze_email_for_notification db now e2) n hn2 with h1 | h2
      · simp only [analyze_email_for_notification, create_notification] at h1
        rcases List.mem_append.mp h1 with h3 | h4
        · exact Or.inl h3
        · right
          rw [List.mem_singleton] at h4
          subst h4
          rfl
      · exact Or.inr h2

/-- C10 witness: the notification created for the keyword-classified
`emailDeadline` has `action_required = false`. -/
theorem C10_witness :
    recDeadlineNotif ∈ init_database.notifications ∨
    recDeadlineNotif.action_required = false :=
  (C10_action_required_never_set init_database 0 emailDeadline
    [emailDeadline]).2 recDeadlineNotif (by decide)
